import Mathlib

/-!
Verification of the command-execution test harness (SpyShell) and the
jeprof profiler post-processing wrapper of this repository.

The harness implementation lives in `test_framework.shell`, outside the
provided sources (only its tests under `testsuite/exp_test.py` are given),
so the harness is modelled from the specification.  The jeprof wrapper
(`crates/aptos-profiler/src/jeprof.py`) is embedded from its source.
-/

/-- Modelled from the spec: a RunResult is the exit code plus captured
output bytes returned by a (real or faked) command execution.  The
implementation in `test_framework.shell` is missing from the sources. -/
structure RunResult where
  exit_code : Int
  output : List Nat
deriving DecidableEq

/-- Modelled from the spec: an Expected Command pairs a command string with
a canned RunResult; immutable once created.  The implementation
(`test_framework.shell.FakeCommand`) is missing from the sources. -/
structure FakeCommand where
  command : String
  result : RunResult
deriving DecidableEq

/-- Modelled from the spec: the three error kinds of the harness
(mismatch, exhaustion, unconsumed expectations at end of test). -/
inductive HarnessError where
  | MismatchError (expected actual : String)
  | ExhaustedError
  | UnconsumedExpectationsError (remaining : List String)
deriving DecidableEq

/-- Modelled from the spec: the Command Harness owns an ordered sequence of
Expected Command entries and a cursor into that sequence.  The
implementation (`test_framework.shell.SpyShell`) is missing from the
sources. -/
structure SpyShell where
  expectations : List FakeCommand
  cursor : Nat
deriving DecidableEq

/-- Modelled from the spec: `expect` initializes the harness with a fixed,
ordered list of expectations and the cursor at the start. -/
def SpyShell.expect (cmds : List FakeCommand) : SpyShell :=
  ⟨cmds, 0⟩

/-- Modelled from the spec: `invoke` compares the command against the next
unconsumed expectation; on match it advances the cursor and returns the
canned RunResult, on mismatch it fails with `MismatchError` reporting both
strings, and past the end it fails with `ExhaustedError`. -/
def SpyShell.invoke (s : SpyShell) (cmd : String) :
    Except HarnessError (RunResult × SpyShell) :=
  match s.expectations[s.cursor]? with
  | none => .error .ExhaustedError
  | some fc =>
      if fc.command = cmd then
        .ok (fc.result, ⟨s.expectations, s.cursor + 1⟩)
      else
        .error (.MismatchError fc.command cmd)

/-- Modelled from the spec: `assert_all_consumed` fails with
`UnconsumedExpectationsError` listing the remaining expected commands when
the cursor has not reached the end of the list, and otherwise succeeds,
leaving the harness unchanged. -/
def SpyShell.assert_all_consumed (s : SpyShell) : Except HarnessError SpyShell :=
  if s.cursor < s.expectations.length then
    .error (.UnconsumedExpectationsError
      ((s.expectations.drop s.cursor).map FakeCommand.command))
  else
    .ok s

/-- Sequencing helper: invoke each command of a list in order, collecting
the returned results, stopping at the first failure. -/
def SpyShell.invokeAll (s : SpyShell) (cmds : List String) :
    Except HarnessError (List RunResult × SpyShell) :=
  match cmds with
  | [] => .ok ([], s)
  | c :: rest =>
      match s.invoke c with
      | .error e => .error e
      | .ok (r, s') =>
          match s'.invokeAll rest with
          | .error e => .error e
          | .ok (rs, s₂) => .ok (r :: rs, s₂)

/-- Iterating `assert_all_consumed` a given number of times, stopping at
the first failure. -/
def SpyShell.assertN (s : SpyShell) : Nat → Except HarnessError SpyShell
  | 0 => .ok s
  | n + 1 =>
      match s.assert_all_consumed with
      | .error e => .error e
      | .ok s' => s'.assertN n

/-- Modelled from the spec: the states of the harness reachable by any
sequence of expect, invoke and assert_all_consumed operations starting
from initialization with the list `L`. -/
inductive Reachable (L : List FakeCommand) : SpyShell → Prop where
  | init : Reachable L (SpyShell.expect L)
  | step_invoke (s : SpyShell) (cmd : String) (r : RunResult) (s' : SpyShell) :
      Reachable L s → s.invoke cmd = .ok (r, s') → Reachable L s'
  | step_assert (s s' : SpyShell) :
      Reachable L s → s.assert_all_consumed = .ok s' → Reachable L s'

/-- Model of Python str.strip on the decoded output text: drop leading and
trailing whitespace characters. -/
def pyStrip (s : String) : String :=
  ⟨((s.data.dropWhile Char.isWhitespace).reverse.dropWhile
      Char.isWhitespace).reverse⟩

/-- Embedding of subprocess.check_output (shell=True, stderr=STDOUT) as
used by jeprof.py.  The parameter `sh` models the external shell: it maps
a command string to the exit code and the combined stdout+stderr decoded
as UTF-8.  A nonzero exit code raises CalledProcessError, which carries
the return code and the captured output. -/
def check_output (sh : String → Int × String) (command : String) :
    Except (Int × String) String :=
  if (sh command).1 = 0 then .ok (sh command).2 else .error (sh command)

/-- Embedding of execute_command from
crates/aptos-profiler/src/jeprof.py: runs the command, returning the
stripped output on success, and on CalledProcessError returns the failure
message built from the return code and the stripped captured output. -/
def execute_command (sh : String → Int × String) (command : String) :
    String :=
  match check_output sh command with
  | .ok output => pyStrip output
  | .error e =>
      "Command execution failed with error code " ++ toString e.1
        ++ ". Output:\n" ++ pyStrip e.2

/-- Embedding of the first shell command issued by jeprof.py: render the
SVG report, redirected to svg_location. -/
def svg_command (svg_location : String) : String :=
  "jeprof --show_bytes ./target/release/aptos-node ./*.heap --svg  > "
    ++ svg_location

/-- Embedding of the second shell command issued by jeprof.py: render the
text report, redirected to text_location. -/
def text_command (text_location : String) : String :=
  "jeprof --show_bytes ./target/release/aptos-node ./*.heap --text  > "
    ++ text_location

/-- Embedding of the third shell command issued by jeprof.py: remove the
heap profile dumps. -/
def heap_cleanup_command : String :=
  "rm ./*.heap"

/-- Embedding of the top-level script body of jeprof.py with
argv[1] = text_location and argv[2] = svg_location: the three shell
commands are executed unconditionally in this order, and the trace pairs
each issued command with the string execute_command returned for it. -/
def jeprof_script (sh : String → Int × String)
    (text_location svg_location : String) : List (String × String) :=
  [svg_command svg_location, text_command text_location,
    heap_cleanup_command].map (fun c => (c, execute_command sh c))

/-- Invoking, from cursor `c`, exactly the commands of the still unconsumed
suffix of the expectation list returns exactly the canned results of that
suffix, in order, and leaves the cursor at the end of the list. -/
theorem SpyShell.invokeAll_suffix (rest : List FakeCommand) :
    ∀ (E : List FakeCommand) (c : Nat), c ≤ E.length → E.drop c = rest →
      SpyShell.invokeAll ⟨E, c⟩ (rest.map FakeCommand.command)
        = .ok (rest.map FakeCommand.result, ⟨E, E.length⟩) := by
  induction rest with
  | nil =>
      intro E c hc hd
      have hle : E.length ≤ c := List.drop_eq_nil_iff.mp hd
      have hcE : c = E.length := le_antisymm hc hle
      subst hcE
      simp [SpyShell.invokeAll]
  | cons fc rest ih =>
      intro E c hc hd
      have hget : E[c]? = some fc := by
        have h0 := List.getElem?_drop E c 0
        rw [hd] at h0
        simpa using h0.symm
      have hlt : c < E.length := (List.getElem?_eq_some.mp hget).1
      have hd' : E.drop (c + 1) = rest := by
        have h1 := List.drop_drop 1 c E
        rw [hd] at h1
        simpa using h1.symm
      have hInv : SpyShell.invoke ⟨E, c⟩ fc.command
          = .ok (fc.result, ⟨E, c + 1⟩) := by
        simp [SpyShell.invoke, hget]
      simp only [List.map_cons, SpyShell.invokeAll, hInv,
        ih E (c + 1) hlt hd']

/-- An invoke that returns a canned result keeps the expectation list,
advances the cursor by exactly one, and starts from a cursor strictly
inside the list. -/
theorem SpyShell.invoke_ok_spec {s : SpyShell} {cmd : String}
    {r : RunResult} {s' : SpyShell} (h : s.invoke cmd = .ok (r, s')) :
    s'.expectations = s.expectations ∧ s'.cursor = s.cursor + 1 ∧
      s.cursor < s.expectations.length := by
  unfold SpyShell.invoke at h
  split at h
  · simp at h
  next fc hget =>
    split at h
    · simp only [Except.ok.injEq, Prod.mk.injEq] at h
      obtain ⟨-, hs⟩ := h
      subst hs
      exact ⟨rfl, rfl, (List.getElem?_eq_some.mp hget).1⟩
    · simp at h

/-- A successful assert_all_consumed returns the harness unchanged and
certifies that the cursor has reached the end of the list. -/
theorem SpyShell.assert_ok_spec {s s' : SpyShell}
    (h : s.assert_all_consumed = .ok s') :
    s' = s ∧ s.expectations.length ≤ s.cursor := by
  unfold SpyShell.assert_all_consumed at h
  by_cases hc : s.cursor < s.expectations.length
  · rw [if_pos hc] at h; simp at h
  · rw [if_neg hc] at h
    simp only [Except.ok.injEq] at h
    exact ⟨h.symm, Nat.le_of_not_lt hc⟩

/-- C1: for every expectation list L, invoking exactly the commands of L in
order returns exactly the canned RunResults of L in order, after which
assert_all_consumed succeeds; in particular, for
L = [("git rev-parse --verify exp/x", exit 1, "")], invoking that command
returns exit code 1 with empty output and assert_all_consumed then
succeeds. -/
theorem C1_in_order_invocation (L : List FakeCommand) :
    (SpyShell.expect L).invokeAll (L.map FakeCommand.command)
        = .ok (L.map FakeCommand.result, ⟨L, L.length⟩) ∧
    SpyShell.assert_all_consumed ⟨L, L.length⟩ = .ok ⟨L, L.length⟩ ∧
    ((SpyShell.expect [⟨"git rev-parse --verify exp/x", ⟨1, []⟩⟩]).invoke
        "git rev-parse --verify exp/x"
      = .ok (⟨1, []⟩, ⟨[⟨"git rev-parse --verify exp/x", ⟨1, []⟩⟩], 1⟩)) ∧
    (SpyShell.assert_all_consumed
        ⟨[⟨"git rev-parse --verify exp/x", ⟨1, []⟩⟩], 1⟩
      = .ok ⟨[⟨"git rev-parse --verify exp/x", ⟨1, []⟩⟩], 1⟩) := by
  refine ⟨SpyShell.invokeAll_suffix L L 0 (Nat.zero_le _) rfl, ?_,
    by rfl, by rfl⟩
  unfold SpyShell.assert_all_consumed
  rw [if_neg (lt_irrefl L.length)]

/-- C2: whenever the next unconsumed expectation exists and its command
string differs from the invoked one, invoke fails with a MismatchError
reporting the expected and the actual command strings, and returns no
canned result. -/
theorem C2_mismatch (s : SpyShell) (fc : FakeCommand) (cmd : String)
    (hget : s.expectations[s.cursor]? = some fc)
    (hne : fc.command ≠ cmd) :
    s.invoke cmd = .error (.MismatchError fc.command cmd) := by
  unfold SpyShell.invoke
  rw [hget]
  exact if_neg hne

/-- Witness for C2: with L = [("cmd1", 0, ""), ("cmd2", 0, "")], invoking
"cmd2" before "cmd1" fails with a MismatchError naming both strings. -/
theorem C2_mismatch_witness :
    (SpyShell.expect [⟨"cmd1", ⟨0, []⟩⟩, ⟨"cmd2", ⟨0, []⟩⟩]).invoke "cmd2"
      = .error (.MismatchError "cmd1" "cmd2") :=
  C2_mismatch _ ⟨"cmd1", ⟨0, []⟩⟩ "cmd2" (by rfl) (by decide)

/-- C3: once the cursor has passed every expectation, any further invoke
fails with an ExhaustedError and returns no result. -/
theorem C3_exhausted (s : SpyShell) (cmd : String)
    (h : s.expectations.length ≤ s.cursor) :
    s.invoke cmd = .error .ExhaustedError := by
  unfold SpyShell.invoke
  rw [List.getElem?_eq_none h]

/-- Witness for C3: after the single expectation of the list has been
consumed, one further invocation fails with ExhaustedError. -/
theorem C3_exhausted_witness :
    (⟨[⟨"cmd1", ⟨0, []⟩⟩], 1⟩ : SpyShell).invoke "cmd1"
      = .error .ExhaustedError :=
  C3_exhausted _ "cmd1" (by decide)

/-- C4: assert_all_consumed fails with an UnconsumedExpectationsError
listing exactly the remaining unconsumed expected commands while the
cursor has not reached the end of the list, and succeeds once the cursor
has reached the end. -/
theorem C4_assert_all_consumed_spec (s : SpyShell) :
    (s.cursor < s.expectations.length →
      s.assert_all_consumed = .error (.UnconsumedExpectationsError
        ((s.expectations.drop s.cursor).map FakeCommand.command))) ∧
    (s.expectations.length ≤ s.cursor →
      s.assert_all_consumed = .ok s) := by
  constructor
  · intro h
    unfold SpyShell.assert_all_consumed
    rw [if_pos h]
  · intro h
    unfold SpyShell.assert_all_consumed
    rw [if_neg (Nat.not_lt.mpr h)]

/-- Witness for C4: with one expectation left, assert_all_consumed lists
exactly that command; with the cursor at the end, it succeeds. -/
theorem C4_assert_all_consumed_witness :
    (SpyShell.expect [⟨"cmd1", ⟨0, []⟩⟩]).assert_all_consumed
      = .error (.UnconsumedExpectationsError ["cmd1"]) ∧
    (⟨[⟨"cmd1", ⟨0, []⟩⟩], 1⟩ : SpyShell).assert_all_consumed
      = .ok ⟨[⟨"cmd1", ⟨0, []⟩⟩], 1⟩ :=
  ⟨(C4_assert_all_consumed_spec _).1 (by decide),
   (C4_assert_all_consumed_spec _).2 (by decide)⟩

/-- C5: once all expectations have been consumed, any number of
consecutive assert_all_consumed calls succeeds and every one returns the
harness unchanged. -/
theorem C5_assert_idempotent (s : SpyShell)
    (h : s.expectations.length ≤ s.cursor) :
    ∀ n, s.assertN n = .ok s := by
  intro n
  induction n with
  | zero => rfl
  | succ n ih =>
      have ha : s.assert_all_consumed = .ok s := by
        unfold SpyShell.assert_all_consumed
        rw [if_neg (Nat.not_lt.mpr h)]
      simp only [SpyShell.assertN, ha, ih]

/-- Witness for C5: three consecutive assert_all_consumed calls on a fully
consumed harness all succeed and leave the state unchanged. -/
theorem C5_assert_idempotent_witness :
    (⟨[⟨"cmd1", ⟨0, []⟩⟩], 1⟩ : SpyShell).assertN 3
      = .ok ⟨[⟨"cmd1", ⟨0, []⟩⟩], 1⟩ :=
  C5_assert_idempotent _ (by decide) 3

/-- C6: every state reachable by expect, invoke and assert_all_consumed
operations keeps the original expectation list in its original order, and
its cursor never exceeds the length of that list. -/
theorem C6_fifo_invariant (L : List FakeCommand) (s : SpyShell)
    (h : Reachable L s) :
    s.expectations = L ∧ s.cursor ≤ L.length := by
  induction h with
  | init => exact ⟨rfl, Nat.zero_le _⟩
  | step_invoke s cmd r s' hr hinv ih =>
      obtain ⟨hE, _⟩ := ih
      obtain ⟨hE', hc', hlt⟩ := SpyShell.invoke_ok_spec hinv
      refine ⟨hE'.trans hE, ?_⟩
      rw [hc']
      rw [hE] at hlt
      omega
  | step_assert s s' hr ha ih =>
      obtain ⟨heq, -⟩ := SpyShell.assert_ok_spec ha
      rw [heq]
      exact ih

/-- Witness for C6: the state reached by initializing with one expectation
and consuming it still carries the original list and a cursor within
bounds. -/
theorem C6_fifo_invariant_witness :
    (⟨[⟨"cmd1", ⟨0, []⟩⟩], 1⟩ : SpyShell).expectations
        = [⟨"cmd1", ⟨0, []⟩⟩] ∧
    (⟨[⟨"cmd1", ⟨0, []⟩⟩], 1⟩ : SpyShell).cursor
        ≤ [(⟨"cmd1", ⟨0, []⟩⟩ : FakeCommand)].length :=
  C6_fifo_invariant [⟨"cmd1", ⟨0, []⟩⟩] _
    (Reachable.step_invoke _ "cmd1" ⟨0, []⟩ _ Reachable.init (by rfl))

/-- C7: a successful invoke changes only the cursor, advancing it by one,
while the expectation list, each of its entries and their canned results
are identical before and after; a successful assert_all_consumed changes
nothing at all. -/
theorem C7_frame (s : SpyShell) (cmd : String) :
    (∀ r s', s.invoke cmd = .ok (r, s') →
      s'.expectations = s.expectations ∧ s'.cursor = s.cursor + 1) ∧
    (∀ s', s.assert_all_consumed = .ok s' → s' = s) := by
  constructor
  · intro r s' h
    obtain ⟨hE, hc, -⟩ := SpyShell.invoke_ok_spec h
    exact ⟨hE, hc⟩
  · intro s' h
    exact (SpyShell.assert_ok_spec h).1

/-- Witness for C7: invoking the single expected command keeps the
expectation list and advances the cursor from 0 to 1; assert_all_consumed
on the resulting state returns it unchanged. -/
theorem C7_frame_witness :
    ((⟨[⟨"cmd1", ⟨0, []⟩⟩], 1⟩ : SpyShell).expectations
        = (SpyShell.expect [⟨"cmd1", ⟨0, []⟩⟩]).expectations ∧
      (⟨[⟨"cmd1", ⟨0, []⟩⟩], 1⟩ : SpyShell).cursor
        = (SpyShell.expect [⟨"cmd1", ⟨0, []⟩⟩]).cursor + 1) ∧
    (⟨[⟨"cmd1", ⟨0, []⟩⟩], 1⟩ : SpyShell)
        = ⟨[⟨"cmd1", ⟨0, []⟩⟩], 1⟩ :=
  ⟨(C7_frame (SpyShell.expect [⟨"cmd1", ⟨0, []⟩⟩]) "cmd1").1
      ⟨0, []⟩ ⟨[⟨"cmd1", ⟨0, []⟩⟩], 1⟩ (by rfl),
   (C7_frame (⟨[⟨"cmd1", ⟨0, []⟩⟩], 1⟩ : SpyShell) "cmd1").2
      ⟨[⟨"cmd1", ⟨0, []⟩⟩], 1⟩ (by rfl)⟩

/-- C8: when the command exits with a nonzero code, execute_command does
not fail: it returns the message "Command execution failed with error code
{returncode}. Output:\n{output}" built from the exit code and the stripped
captured output. -/
theorem C8_nonzero_exit (sh : String → Int × String) (cmd : String)
    (h : (sh cmd).1 ≠ 0) :
    execute_command sh cmd
      = "Command execution failed with error code " ++ toString (sh cmd).1
          ++ ". Output:\n" ++ pyStrip (sh cmd).2 := by
  unfold execute_command check_output
  rw [if_neg h]

/-- Witness for C8: a command exiting with code 1 and output " boom "
yields the formatted failure message with the output stripped. -/
theorem C8_nonzero_exit_witness :
    ((fun _ => ((1 : Int), " boom ")) "cmd").1 ≠ 0 ∧
    execute_command (fun _ => ((1 : Int), " boom ")) "cmd"
      = "Command execution failed with error code 1. Output:\nboom" :=
  ⟨by decide,
   (C8_nonzero_exit (fun _ => ((1 : Int), " boom ")) "cmd"
      (by decide)).trans (by rfl)⟩

/-- C9: when the command exits with code 0, execute_command returns its
combined decoded output with leading and trailing whitespace stripped. -/
theorem C9_zero_exit (sh : String → Int × String) (cmd : String)
    (h : (sh cmd).1 = 0) :
    execute_command sh cmd = pyStrip (sh cmd).2 := by
  unfold execute_command check_output
  rw [if_pos h]

/-- Witness for C9: a command exiting with code 0 and output "  ok\n"
yields the stripped output "ok". -/
theorem C9_zero_exit_witness :
    ((fun _ => ((0 : Int), "  ok\n")) "cmd").1 = 0 ∧
    execute_command (fun _ => ((0 : Int), "  ok\n")) "cmd" = "ok" :=
  ⟨by decide,
   (C9_zero_exit (fun _ => ((0 : Int), "  ok\n")) "cmd"
      (by decide)).trans (by rfl)⟩

/-- C10: for every shell behavior and every pair of argument locations,
the jeprof.py script issues exactly three commands, in the fixed order
svg render, text render, heap cleanup — so the cleanup is issued no
matter how earlier commands exit. -/
theorem C10_script_command_order (sh : String → Int × String)
    (text_location svg_location : String) :
    (jeprof_script sh text_location svg_location).map Prod.fst
        = [svg_command svg_location, text_command text_location,
           heap_cleanup_command] ∧
    (jeprof_script sh text_location svg_location).length = 3 :=
  ⟨rfl, rfl⟩
